import Mathlib

/-!
Shallow embedding of the voice-assistant hook in src/hooks/useJarvis.ts.

The hook is a thin state-tracking layer over three platform capabilities:
speech recognition, speech synthesis (with a FIFO utterance queue), and a
remote chat session. The JavaScript host is single-threaded and
event-driven, so the module state is modelled as a record and every
operation or platform event handler as a pure state transformer. The
platform synthesis engine is part of the modelled state: `playing` stands
for window.speechSynthesis engaged on an utterance (its `speaking`
property), and an utterance's start event is modelled as firing when the
engine accepts the utterance (setIsSpeaking true inside engineSpeak),
since the handlers run on the same event loop.

Two history fields (`played`, `enqueued`) record, in chronological order,
the utterances handed to the engine and the utterances pushed by `speak`;
they are write-only ghost state used to phrase ordering properties.
`log` records the console.error lines emitted, `cbLog` the transcripts
delivered to the caller-supplied recognition callback.
-/

namespace Jarvis

/-- The host's String.prototype.trim: remove leading and trailing
whitespace. (Defined over the character list so that it evaluates;
JavaScript and Lean agree on the whitespace characters occurring here.) -/
def jsTrim (s : String) : String :=
  String.mk (((s.data.dropWhile Char.isWhitespace).reverse.dropWhile
    Char.isWhitespace).reverse)

/-- One SpeechSynthesisUtterance: `speak` constructs it with
lang fixed to pt-BR and rate fixed to 3.0. -/
structure Utt where
  text : String
  lang : String
  rate : ℚ
deriving DecidableEq

/-- Utterance construction in `speak`:
new SpeechSynthesisUtterance(text), utterance.lang = pt-BR,
utterance.rate = 3.0. -/
def mkUtterance (text : String) : Utt :=
  { text := text, lang := "pt-BR", rate := 3 }

/-- The chat session handle created by ai.chats.create with a fixed
model identifier (the fixed system instruction and tool configuration are
opaque to every claim and are not carried). -/
structure ChatSession where
  apiKey : String
  model : String
deriving DecidableEq

/-- ai.chats.create with model gemini-2.5-flash. -/
def mkChat (key : String) : ChatSession :=
  { apiKey := key, model := "gemini-2.5-flash" }

/-- One platform recognition session as configured by startListening:
continuous = false, interimResults = false, lang = pt-BR. -/
structure RecSession where
  lang : String
  continuous : Bool
  interimResults : Bool
deriving DecidableEq

/-- The module state: the three React flags, the refs
(chatRef, recognitionRef, utteranceQueueRef, isCancelingRef), the
synthesis engine (`playing`, plus `interruptedPending` for the error
event owed to a cancelled utterance), and the ghost histories. -/
structure JState where
  isListening : Bool
  isSpeaking : Bool
  isApiReady : Bool
  chat : Option ChatSession
  recognition : Option RecSession
  queue : List Utt
  isCanceling : Bool
  playing : Option Utt
  interruptedPending : Bool
  played : List Utt
  enqueued : List Utt
  log : List String
  cbLog : List String
deriving DecidableEq

/-- The state at module load: flags false, refs empty. -/
def init0 : JState :=
  { isListening := false, isSpeaking := false, isApiReady := false
    chat := none, recognition := none, queue := [], isCanceling := false
    playing := none, interruptedPending := false
    played := [], enqueued := [], log := [], cbLog := [] }

/-- window.speechSynthesis.speak(utterance) together with the utterance's
start handler (utterance.onstart sets isSpeaking true): the engine takes
the utterance, and the hand-off is recorded in the `played` history. -/
def engineSpeak (u : Utt) (s : JState) : JState :=
  { s with playing := some u, played := s.played ++ [u], isSpeaking := true }

/-- processQueue: return if the engine is speaking or the queue is empty;
otherwise shift the first utterance, clear isCancelingRef and hand the
utterance to the engine. -/
def processQueue (s : JState) : JState :=
  match s.playing, s.queue with
  | some _, _ => s
  | none, [] => s
  | none, u :: rest => engineSpeak u { s with queue := rest, isCanceling := false }

/-- speak(text): return if the capability is unsupported or text is
empty/whitespace-only; otherwise push one utterance and call
processQueue. `sup` is the module constant isBrowserSupported. -/
def speak (sup : Bool) (text : String) (s : JState) : JState :=
  if sup = false ∨ jsTrim text = "" then s
  else
    processQueue { s with queue := s.queue ++ [mkUtterance text],
                          enqueued := s.enqueued ++ [mkUtterance text] }

/-- The shared tail of the onend and onerror handlers: if the queue is
non-empty call processQueue, else setIsSpeaking false. -/
def drainOrStop (s : JState) : JState :=
  if s.queue.length > 0 then processQueue s else { s with isSpeaking := false }

/-- utterance.onend handler body. -/
def onEndHandler (s : JState) : JState :=
  drainOrStop s

/-- utterance.onerror handler body: if the error is interrupted and
isCancelingRef is set, clear the flag and log nothing (intentional
cancellation); otherwise log one console.error line. Then drain. -/
def onErrorHandler (err : String) (s : JState) : JState :=
  drainOrStop (if err = "interrupted" ∧ s.isCanceling = true
    then { s with isCanceling := false }
    else { s with log := s.log ++ ["Speech synthesis error: " ++ err] })

/-- Platform event: the playing utterance finished naturally; the engine
goes idle and utterance.onend runs. No-op when nothing is playing. -/
def utterEnded (s : JState) : JState :=
  match s.playing with
  | some _ => onEndHandler { s with playing := none }
  | none => s

/-- Platform event: synthesis failed on the playing utterance with error
code `err`; the engine goes idle and utterance.onerror runs. No-op when
nothing is playing. -/
def utterErrored (err : String) (s : JState) : JState :=
  match s.playing with
  | some _ => onErrorHandler err { s with playing := none }
  | none => s

/-- Platform event: delivery of the error event owed to an utterance that
window.speechSynthesis.cancel interrupted; the engine reports the error
code interrupted. -/
def interruptedDelivered (s : JState) : JState :=
  if s.interruptedPending = true
  then onErrorHandler "interrupted" { s with interruptedPending := false }
  else s

/-- cancelSpeech line 1: isCancelingRef.current = true. -/
def markCanceling (s : JState) : JState :=
  { s with isCanceling := true }

/-- cancelSpeech line 2: utteranceQueueRef.current = []. -/
def emptyQueue (s : JState) : JState :=
  { s with queue := [] }

/-- cancelSpeech line 3: window.speechSynthesis.cancel() — the engine
drops the playing utterance and owes it an interrupted error event. -/
def engineCancel (s : JState) : JState :=
  { s with playing := none,
           interruptedPending := s.interruptedPending || s.playing.isSome }

/-- cancelSpeech line 4: setIsSpeaking(false). -/
def clearSpeaking (s : JState) : JState :=
  { s with isSpeaking := false }

/-- cancelSpeech: guarded by isBrowserSupported, then the four steps in
source order. -/
def cancelSpeech (sup : Bool) (s : JState) : JState :=
  if sup = true then clearSpeaking (engineCancel (emptyQueue (markCanceling s)))
  else s

/-- startListening(onResultCallback): return if listening, speaking or
unsupported; otherwise store the callback, build a recognition session
(continuous false, interimResults false, lang pt-BR), install handlers,
start it and store it in recognitionRef. -/
def startListening (sup : Bool) (s : JState) : JState :=
  if s.isListening = true ∨ s.isSpeaking = true ∨ sup = false then s
  else { s with recognition := some (RecSession.mk "pt-BR" false false) }

/-- recognition.onstart handler: setIsListening(true). -/
def recStarted (s : JState) : JState :=
  { s with isListening := true }

/-- recognition.onend handler: setIsListening(false). -/
def recEnded (s : JState) : JState :=
  { s with isListening := false }

/-- recognition.onerror handler: log and setIsListening(false). -/
def recErrored (err : String) (s : JState) : JState :=
  { s with log := s.log ++ ["Speech recognition error: " ++ err],
           isListening := false }

/-- recognition.onresult handler: take the last result of the event's
result list, its first alternative, trim it, and deliver it to the stored
callback. `results` models event.results as a list of results, each a
list of alternative transcripts. Indexing past the end is a host
TypeError, modelled as none. -/
def recResult (results : List (List String)) (s : JState) : Option JState :=
  match results.getLast? with
  | none => none
  | some alts =>
    match alts.head? with
    | none => none
    | some t => some { s with cbLog := s.cbLog ++ [jsTrim t] }

/-- The error outcomes of getJarvisResponseStream: the thrown
uninitialized-session Error, or a transport fault of the remote service
propagated to the caller. -/
inductive SendError where
  | notInitialized (msg : String)
  | transport (fault : String)
deriving DecidableEq

/-- getJarvisResponseStream(message): throw if chatRef is empty, else
return the stream produced by chat.sendMessageStream. The remote service
is the parameter `remote`, giving either the fragment stream or a
transport fault; the module adds no handling of its own. The returned
state is the module state after the call. -/
def getJarvisResponseStream (remote : String → Except String (List String))
    (s : JState) (message : String) :
    Except SendError (List String) × JState :=
  match s.chat with
  | none => (Except.error (SendError.notInitialized "Jarvis AI not initialized."), s)
  | some _ =>
    match remote message with
    | Except.ok frags => (Except.ok frags, s)
    | Except.error f => (Except.error (SendError.transport f), s)

/-- The initialization effect: if process.env.API_KEY is falsy (unset, or
set to the empty string), log a diagnostic and return; otherwise create
the chat session and setIsApiReady(true). `apiKey` is the environment
variable: none when unset. -/
def initApi (apiKey : Option String) (s : JState) : JState :=
  match apiKey with
  | none => { s with log := s.log ++ ["API_KEY environment variable not set."] }
  | some key =>
    if key = "" then { s with log := s.log ++ ["API_KEY environment variable not set."] }
    else { s with chat := some (mkChat key), isApiReady := true }

/-- States reachable from module load by speak calls with non-empty,
non-whitespace texts together with the resulting platform synthesis
events (natural completion or synthesis failure of playing utterances). -/
inductive ReachS (sup : Bool) : JState → Prop where
  | init : ReachS sup init0
  | speakStep (s : JState) (t : String) :
      ReachS sup s → jsTrim t ≠ "" → ReachS sup (speak sup t s)
  | endedStep (s : JState) :
      ReachS sup s → ReachS sup (utterEnded s)
  | erroredStep (s : JState) (err : String) :
      ReachS sup s → ReachS sup (utterErrored err s)

/-! ### Case lemmas for the drain step and the synthesis event handlers -/

lemma processQueue_of_playing {s : JState} {u : Utt} (h : s.playing = some u) :
    processQueue s = s := by
  unfold processQueue; rw [h]

lemma processQueue_of_isSome {s : JState} (h : s.playing.isSome = true) :
    processQueue s = s := by
  obtain ⟨u, hu⟩ := Option.isSome_iff_exists.mp h
  exact processQueue_of_playing hu

lemma processQueue_none_nil {s : JState} (h1 : s.playing = none)
    (h2 : s.queue = []) : processQueue s = s := by
  unfold processQueue; rw [h1, h2]

lemma processQueue_none_cons {s : JState} {u : Utt} {rest : List Utt}
    (h1 : s.playing = none) (h2 : s.queue = u :: rest) :
    processQueue s = { s with queue := rest, isCanceling := false,
                              playing := some u, played := s.played ++ [u],
                              isSpeaking := true } := by
  unfold processQueue; rw [h1, h2]; rfl

lemma processQueue_enqueued (s : JState) :
    (processQueue s).enqueued = s.enqueued := by
  unfold processQueue; split <;> simp [engineSpeak]

lemma processQueue_log (s : JState) : (processQueue s).log = s.log := by
  unfold processQueue; split <;> simp [engineSpeak]

lemma processQueue_isCanceling (s : JState) (h : s.isCanceling = false) :
    (processQueue s).isCanceling = false := by
  unfold processQueue; split <;> simp [engineSpeak, h]

lemma utterEnded_none {s : JState} (h : s.playing = none) :
    utterEnded s = s := by
  unfold utterEnded; rw [h]

lemma utterEnded_some {s : JState} {u : Utt} (h : s.playing = some u) :
    utterEnded s = drainOrStop { s with playing := none } := by
  unfold utterEnded onEndHandler; rw [h]

lemma utterErrored_none {s : JState} {err : String} (h : s.playing = none) :
    utterErrored err s = s := by
  unfold utterErrored; rw [h]

lemma utterErrored_some {s : JState} {u : Utt} {err : String}
    (h : s.playing = some u) :
    utterErrored err s = onErrorHandler err { s with playing := none } := by
  unfold utterErrored; rw [h]

lemma onErrorHandler_cancel {s : JState} {err : String}
    (h : err = "interrupted" ∧ s.isCanceling = true) :
    onErrorHandler err s = drainOrStop { s with isCanceling := false } := by
  unfold onErrorHandler; rw [if_pos h]

lemma onErrorHandler_genuine {s : JState} {err : String}
    (h : ¬(err = "interrupted" ∧ s.isCanceling = true)) :
    onErrorHandler err s =
      drainOrStop { s with log := s.log ++ ["Speech synthesis error: " ++ err] } := by
  unfold onErrorHandler; rw [if_neg h]

lemma interruptedDelivered_pending {s : JState} (h : s.interruptedPending = true) :
    interruptedDelivered s =
      onErrorHandler "interrupted" { s with interruptedPending := false } := by
  unfold interruptedDelivered; rw [if_pos h]

lemma interruptedDelivered_not {s : JState} (h : ¬s.interruptedPending = true) :
    interruptedDelivered s = s := by
  unfold interruptedDelivered; rw [if_neg h]

lemma drainOrStop_nil {s : JState} (h : s.queue = []) :
    drainOrStop s = { s with isSpeaking := false } := by
  unfold drainOrStop; rw [h]; simp

lemma drainOrStop_cons {s : JState} {u : Utt} {rest : List Utt}
    (h : s.queue = u :: rest) : drainOrStop s = processQueue s := by
  unfold drainOrStop; rw [h]; simp

/-! ### The trace invariants -/

/-- The invariants of the synthesis trace: the `played` history followed
by the pending queue is exactly the `enqueued` history (so utterances are
handed to the engine in enqueue order, none skipped, none duplicated),
and the speaking flag tracks pending or playing work. -/
def TraceInv (s : JState) : Prop :=
  s.played ++ s.queue = s.enqueued ∧
  (s.isSpeaking = true ↔ (s.queue ≠ [] ∨ s.playing.isSome = true))

lemma processQueue_inv {s : JState} (h1 : s.played ++ s.queue = s.enqueued)
    (h2 : s.playing.isSome = true → s.isSpeaking = true)
    (h3 : s.playing = none → s.queue = [] → s.isSpeaking = false) :
    TraceInv (processQueue s) := by
  cases hp : s.playing with
  | some u =>
    rw [processQueue_of_playing hp]
    refine ⟨h1, ?_⟩
    have hs := h2 (by rw [hp]; rfl)
    simp [hs, hp]
  | none =>
    cases hq : s.queue with
    | nil =>
      rw [processQueue_none_nil hp hq]
      refine ⟨h1, ?_⟩
      simp [h3 hp hq, hq, hp]
    | cons v rest =>
      rw [processQueue_none_cons hp hq]
      constructor
      · show (s.played ++ [v]) ++ rest = s.enqueued
        rw [List.append_assoc]
        simpa [hq] using h1
      · simp

lemma drainOrStop_inv {s : JState} (hp : s.playing = none)
    (h1 : s.played ++ s.queue = s.enqueued) :
    TraceInv (drainOrStop s) := by
  unfold drainOrStop
  split
  · next hq =>
    refine processQueue_inv h1 (by simp [hp]) ?_
    intro _ hnil
    rw [hnil] at hq
    simp at hq
  · next hq =>
    have hnil : s.queue = [] := by
      cases hqq : s.queue with
      | nil => rfl
      | cons a l => rw [hqq] at hq; simp at hq
    refine ⟨h1, ?_⟩
    simp [hnil, hp]

lemma reach_inv {sup : Bool} {s : JState} (h : ReachS sup s) : TraceInv s := by
  induction h with
  | init => exact ⟨rfl, by simp [init0]⟩
  | speakStep s t hr hne ih =>
    by_cases hc : sup = false ∨ jsTrim t = ""
    · unfold speak; rw [if_pos hc]; exact ih
    · unfold speak; rw [if_neg hc]
      apply processQueue_inv
      · show s.played ++ (s.queue ++ [mkUtterance t]) = s.enqueued ++ [mkUtterance t]
        rw [← List.append_assoc, ih.1]
      · intro hps
        show s.isSpeaking = true
        exact ih.2.mpr (Or.inr hps)
      · intro _ hq
        exact absurd hq (by simp)
  | endedStep s hr ih =>
    cases hp : s.playing with
    | none => rw [utterEnded_none hp]; exact ih
    | some u =>
      rw [utterEnded_some hp]
      exact drainOrStop_inv rfl ih.1
  | erroredStep s err hr ih =>
    cases hp : s.playing with
    | none => rw [utterErrored_none hp]; exact ih
    | some u =>
      rw [utterErrored_some hp]
      by_cases hc : err = "interrupted" ∧
          ({ s with playing := none } : JState).isCanceling = true
      · rw [onErrorHandler_cancel hc]
        exact drainOrStop_inv rfl ih.1
      · rw [onErrorHandler_genuine hc]
        exact drainOrStop_inv rfl ih.1

/-! ### The claims -/

/-- C1: speak(text) with empty or whitespace-only text, or with the
capability unsupported, leaves the whole module state (queue and every
flag) unchanged and enqueues nothing; with the capability supported and a
non-whitespace text, it enqueues exactly one utterance (the enqueued
history grows by one, carrying that text) and triggers queue draining
(the call is the drain step applied to the state with the one utterance
pushed). -/
theorem c1_speak_contract :
    (∀ (sup : Bool) (text : String) (s : JState),
       sup = false ∨ jsTrim text = "" → speak sup text s = s) ∧
    (∀ (text : String) (s : JState), jsTrim text ≠ "" →
       (speak true text s).enqueued = s.enqueued ++ [mkUtterance text] ∧
       speak true text s =
         processQueue { s with queue := s.queue ++ [mkUtterance text],
                               enqueued := s.enqueued ++ [mkUtterance text] }) := by
  constructor
  · intro sup text s h
    unfold speak; rw [if_pos h]
  · intro text s h
    have hc : ¬(true = false ∨ jsTrim text = "") := by simp [h]
    constructor
    · unfold speak; rw [if_neg hc, processQueue_enqueued]
    · unfold speak; rw [if_neg hc]

/-- C1 witness: speak on whitespace is the identity at a concrete state,
and speak on a concrete word extends the enqueued history by one. -/
theorem c1_speak_contract_witness :
    speak true "   " init0 = init0 ∧
    (speak true "Ola" init0).enqueued = init0.enqueued ++ [mkUtterance "Ola"] :=
  ⟨c1_speak_contract.1 true "   " init0 (Or.inr (by decide)),
   (c1_speak_contract.2 "Ola" init0 (by decide)).1⟩

/-- C2: with the capability supported, cancelSpeech is exactly the four
steps in source order — mark cancellation-in-progress, empty the queue,
request the engine stop, clear the speaking flag — so for every prior
state it results in an empty queue and speaking = false with the
cancellation flag set, and no utterance plays after it: every following
synthesis event (natural end, genuine failure, or the interrupted error
owed to the cancelled utterance) leaves the engine idle with the queue
still empty. -/
theorem c2_cancel_contract (s : JState) :
    cancelSpeech true s = clearSpeaking (engineCancel (emptyQueue (markCanceling s))) ∧
    (cancelSpeech true s).queue = [] ∧
    (cancelSpeech true s).isSpeaking = false ∧
    (cancelSpeech true s).isCanceling = true ∧
    (utterEnded (cancelSpeech true s)).playing = none ∧
    (∀ err, (utterErrored err (cancelSpeech true s)).playing = none) ∧
    (interruptedDelivered (cancelSpeech true s)).playing = none ∧
    (interruptedDelivered (cancelSpeech true s)).queue = [] := by
  obtain ⟨l, sp, ar, ch, rec, q, canc, pl, ip, pld, enq, lg, cbl⟩ := s
  refine ⟨by unfold cancelSpeech; rw [if_pos rfl], rfl, rfl, rfl, rfl,
          fun err => rfl, ?_, ?_⟩ <;>
    cases ip <;> cases pl <;>
      simp [cancelSpeech, clearSpeaking, engineCancel, emptyQueue, markCanceling,
            interruptedDelivered, onErrorHandler, drainOrStop, processQueue,
            engineSpeak]

/-- C3: startListening called while listening, while speaking, or with
the capability unsupported, is a silent no-op: the state is returned
unchanged, so no recognition session is created, the callback is never
invoked (the delivered-transcript history is untouched), and a false
listening flag stays false. -/
theorem c3_start_noop (sup : Bool) (s : JState)
    (h : s.isListening = true ∨ s.isSpeaking = true ∨ sup = false) :
    startListening sup s = s ∧
    (startListening sup s).recognition = s.recognition ∧
    (startListening sup s).cbLog = s.cbLog ∧
    (s.isListening = false → (startListening sup s).isListening = false) := by
  have he : startListening sup s = s := by
    unfold startListening; rw [if_pos h]
  exact ⟨he, by rw [he], by rw [he], fun hl => by rw [he]; exact hl⟩

/-- C3 witness: startListening while the speaking flag is set, at a
concrete state, changes nothing. -/
theorem c3_start_noop_witness :
    startListening true { init0 with isSpeaking := true } =
      { init0 with isSpeaking := true } ∧
    (startListening true { init0 with isSpeaking := true }).recognition =
      ({ init0 with isSpeaking := true } : JState).recognition ∧
    (startListening true { init0 with isSpeaking := true }).cbLog =
      ({ init0 with isSpeaking := true } : JState).cbLog ∧
    (({ init0 with isSpeaking := true } : JState).isListening = false →
      (startListening true { init0 with isSpeaking := true }).isListening = false) :=
  c3_start_noop true { init0 with isSpeaking := true } (Or.inr (Or.inl rfl))

/-- C4: with no chat session, getJarvisResponseStream fails with the
uninitialized-session error carrying the exact message and yields no
fragments; with a session, it returns exactly the remote service's
stream, and a transport fault is propagated unchanged. -/
theorem c4_send_contract (remote : String → Except String (List String))
    (s : JState) (msg : String) :
    (s.chat = none →
       getJarvisResponseStream remote s msg =
         (Except.error (SendError.notInitialized "Jarvis AI not initialized."), s)) ∧
    (s.chat.isSome = true →
       (∀ frags, remote msg = Except.ok frags →
          (getJarvisResponseStream remote s msg).1 = Except.ok frags) ∧
       (∀ f, remote msg = Except.error f →
          (getJarvisResponseStream remote s msg).1 =
            Except.error (SendError.transport f))) := by
  constructor
  · intro h
    unfold getJarvisResponseStream; rw [h]
  · intro h
    obtain ⟨c, hcs⟩ := Option.isSome_iff_exists.mp h
    constructor
    · intro frags hr
      unfold getJarvisResponseStream; rw [hcs, hr]
    · intro f hr
      unfold getJarvisResponseStream; rw [hcs, hr]

/-- C4 witness: at a state with no session the call fails with the exact
uninitialized-session error, and at a state with a session it returns the
remote stream, or the remote fault unchanged. -/
theorem c4_send_contract_witness :
    getJarvisResponseStream (fun _ => Except.ok ["Sim, Senhor."]) init0 "oi" =
      (Except.error (SendError.notInitialized "Jarvis AI not initialized."), init0) ∧
    (getJarvisResponseStream (fun _ => Except.ok ["Sim, Senhor."])
      { init0 with chat := some (mkChat "k") } "oi").1 = Except.ok ["Sim, Senhor."] ∧
    (getJarvisResponseStream (fun _ => Except.error "network down")
      { init0 with chat := some (mkChat "k") } "oi").1 =
      Except.error (SendError.transport "network down") :=
  ⟨(c4_send_contract (fun _ => Except.ok ["Sim, Senhor."]) init0 "oi").1 rfl,
   ((c4_send_contract (fun _ => Except.ok ["Sim, Senhor."])
      { init0 with chat := some (mkChat "k") } "oi").2 rfl).1 _ rfl,
   ((c4_send_contract (fun _ => Except.error "network down")
      { init0 with chat := some (mkChat "k") } "oi").2 rfl).2 _ rfl⟩

/-- C5: the interrupted error event owed to a cancelled utterance,
handled while the cancellation-in-progress flag is still set, logs
nothing (and consumes the flag); a synthesis error on a playing utterance
without a preceding cancellation logs exactly one line; and in both cases
queue draining continues — the next utterance is dequeued and played when
the queue is non-empty, otherwise the speaking flag is cleared. -/
theorem c5_error_logging (s : JState) (err : String) :
    (s.interruptedPending = true → s.isCanceling = true →
       (interruptedDelivered s).log = s.log ∧
       (interruptedDelivered s).isCanceling = false) ∧
    (s.playing.isSome = true → s.isCanceling = false →
       (utterErrored err s).log = s.log ++ ["Speech synthesis error: " ++ err]) ∧
    (∀ u v rest, s.playing = some u → s.queue = v :: rest →
       (utterErrored err s).playing = some v ∧ (utterErrored err s).queue = rest) ∧
    (∀ u, s.playing = some u → s.queue = [] →
       (utterErrored err s).playing = none ∧
       (utterErrored err s).isSpeaking = false) ∧
    (∀ v rest, s.interruptedPending = true → s.playing = none →
       s.queue = v :: rest → (interruptedDelivered s).playing = some v) ∧
    (s.interruptedPending = true → s.playing = none → s.queue = [] →
       (interruptedDelivered s).isSpeaking = false) := by
  obtain ⟨l, sp, ar, ch, rec, q, canc, pl, ip, pld, enq, lg, cbl⟩ := s
  refine ⟨?_, ?_, ?_, ?_, ?_, ?_⟩
  · intro hpend hcanc
    simp only [] at hpend hcanc
    subst hpend; subst hcanc
    cases q <;> cases pl <;>
      simp [interruptedDelivered, onErrorHandler, drainOrStop, processQueue,
            engineSpeak]
  · intro hps hcanc
    simp only [] at hps hcanc
    subst hcanc
    cases hpl : pl with
    | none => rw [hpl] at hps; simp at hps
    | some u =>
      subst hpl
      cases q <;>
        simp [utterErrored, onErrorHandler, drainOrStop, processQueue,
              engineSpeak]
  · intro u v rest hu hq
    simp only [] at hu hq
    subst hu; subst hq
    by_cases hcond : err = "interrupted" ∧ canc = true <;>
      simp [utterErrored, onErrorHandler, drainOrStop, processQueue,
            engineSpeak, hcond]
  · intro u hu hq
    simp only [] at hu hq
    subst hu; subst hq
    by_cases hcond : err = "interrupted" ∧ canc = true <;>
      simp [utterErrored, onErrorHandler, drainOrStop, processQueue,
            engineSpeak, hcond]
  · intro v rest hpend hplay hq
    simp only [] at hpend hplay hq
    subst hpend; subst hplay; subst hq
    by_cases hcanc : canc = true <;>
      simp [interruptedDelivered, onErrorHandler, drainOrStop, processQueue,
            engineSpeak, hcanc]
  · intro hpend hplay hq
    simp only [] at hpend hplay hq
    subst hpend; subst hplay; subst hq
    by_cases hcanc : canc = true <;>
      simp [interruptedDelivered, onErrorHandler, drainOrStop, processQueue,
            engineSpeak, hcanc]

/-- C5 witness: at a concrete cancelled state the interrupted error adds
no log line; at a concrete playing state without cancellation the error
adds exactly one line; the drain then dequeues the concrete queued
utterance. -/
theorem c5_error_logging_witness :
    ((interruptedDelivered
        { init0 with interruptedPending := true, isCanceling := true }).log =
      ({ init0 with interruptedPending := true, isCanceling := true } : JState).log ∧
     (interruptedDelivered
        { init0 with interruptedPending := true, isCanceling := true }).isCanceling =
      false) ∧
    (utterErrored "synthesis-failed"
        { init0 with playing := some (mkUtterance "Ola") }).log =
      ({ init0 with playing := some (mkUtterance "Ola") } : JState).log ++
        ["Speech synthesis error: " ++ "synthesis-failed"] ∧
    ((utterErrored "synthesis-failed"
        { init0 with playing := some (mkUtterance "Ola"),
                     queue := [mkUtterance "Senhor"] }).playing =
       some (mkUtterance "Senhor") ∧
     (utterErrored "synthesis-failed"
        { init0 with playing := some (mkUtterance "Ola"),
                     queue := [mkUtterance "Senhor"] }).queue = []) :=
  ⟨(c5_error_logging
      { init0 with interruptedPending := true, isCanceling := true }
      "synthesis-failed").1 rfl rfl,
   (c5_error_logging { init0 with playing := some (mkUtterance "Ola") }
      "synthesis-failed").2.1 rfl rfl,
   (c5_error_logging
      { init0 with playing := some (mkUtterance "Ola"),
                   queue := [mkUtterance "Senhor"] }
      "synthesis-failed").2.2.1 (mkUtterance "Ola") (mkUtterance "Senhor") []
      rfl rfl⟩

/-- C6: utterances play strictly in enqueue order, one at a time — on
every trace of speak calls and synthesis events, the history of
utterances handed to the engine followed by the pending queue is exactly
the enqueue history; the drain step never dequeues while the engine is
producing audio; and a terminal event (end or error) with a non-empty
queue immediately dequeues the next utterance and plays it. -/
theorem c6_ordering :
    (∀ (sup : Bool) (s : JState), ReachS sup s →
       s.played ++ s.queue = s.enqueued) ∧
    (∀ s : JState, s.playing.isSome = true → processQueue s = s) ∧
    (∀ (s : JState) (u v : Utt) (rest : List Utt),
       s.playing = some u → s.queue = v :: rest →
       (utterEnded s).playing = some v ∧ (utterEnded s).queue = rest ∧
       (∀ err, (utterErrored err s).playing = some v ∧
               (utterErrored err s).queue = rest)) := by
  refine ⟨fun sup s h => (reach_inv h).1, fun s h => processQueue_of_isSome h, ?_⟩
  intro s u v rest hu hq
  obtain ⟨l, sp, ar, ch, rec, q, canc, pl, ip, pld, enq, lg, cbl⟩ := s
  simp only [] at hu hq
  subst hu; subst hq
  refine ⟨?_, ?_, ?_⟩
  · simp [utterEnded, onEndHandler, drainOrStop, processQueue, engineSpeak]
  · simp [utterEnded, onEndHandler, drainOrStop, processQueue, engineSpeak]
  · intro err
    by_cases hcond : err = "interrupted" ∧ canc = true <;>
      simp [utterErrored, onErrorHandler, drainOrStop, processQueue,
            engineSpeak, hcond]

/-- C6 witness: on the concrete trace speak Ola, speak Senhor the
histories split as required; the drain step at a concrete playing state
changes nothing; and the end event at a concrete playing state with a
queued utterance dequeues exactly it. -/
theorem c6_ordering_witness :
    (speak true "Senhor" (speak true "Ola" init0)).played ++
        (speak true "Senhor" (speak true "Ola" init0)).queue =
      (speak true "Senhor" (speak true "Ola" init0)).enqueued ∧
    processQueue { init0 with playing := some (mkUtterance "Ola") } =
      { init0 with playing := some (mkUtterance "Ola") } ∧
    (utterEnded { init0 with playing := some (mkUtterance "Ola"),
                             queue := [mkUtterance "Senhor"] }).playing =
      some (mkUtterance "Senhor") :=
  ⟨c6_ordering.1 true _
     (ReachS.speakStep _ "Senhor"
       (ReachS.speakStep _ "Ola" ReachS.init (by decide)) (by decide)),
   c6_ordering.2.1 _ rfl,
   (c6_ordering.2.2 _ (mkUtterance "Ola") (mkUtterance "Senhor") [] rfl rfl).1⟩

/-- C7: in every state reachable by speak calls with non-empty texts and
the resulting synthesis events, the speaking flag is true exactly when
the utterance queue is non-empty or an utterance is playing. -/
theorem c7_speaking_iff (sup : Bool) (s : JState) (h : ReachS sup s) :
    s.isSpeaking = true ↔ (s.queue ≠ [] ∨ s.playing.isSome = true) :=
  (reach_inv h).2

/-- C7 witness: the invariant instantiated on the concrete reachable
state after speak Ola from the initial state. -/
theorem c7_speaking_iff_witness :
    (speak true "Ola" init0).isSpeaking = true ↔
      ((speak true "Ola" init0).queue ≠ [] ∨
       (speak true "Ola" init0).playing.isSome = true) :=
  c7_speaking_iff true _ (ReachS.speakStep _ "Ola" ReachS.init (by decide))

/-- C8 counterexample: the claim says a present API key always yields a
chat session and a ready flag, but the code tests JavaScript truthiness
of process.env.API_KEY, so the present-but-empty key is treated as
missing: no session is created, the ready flag stays false, and the
missing-credential diagnostic is logged. -/
theorem c8_counterexample :
    (initApi (some "") init0).chat = none ∧
    (initApi (some "") init0).isApiReady = false ∧
    (initApi (some "") init0).log =
      ["API_KEY environment variable not set."] := by
  refine ⟨rfl, rfl, rfl⟩

/-- C8 amended: if the API key is absent — or present but empty, which
the truthiness test treats identically — initialization logs the
diagnostic, leaves the ready flag and the chat session untouched (so the
chat capability stays not-ready), and returns normally; if the key is
present and non-empty, the chat session is created with it and the ready
flag becomes true, with nothing logged. -/
theorem c8_init_amended (s : JState) :
    (∀ k : Option String, k = none ∨ k = some "" →
       (initApi k s).isApiReady = s.isApiReady ∧
       (initApi k s).chat = s.chat ∧
       (initApi k s).log = s.log ++ ["API_KEY environment variable not set."]) ∧
    (∀ key : String, key ≠ "" →
       (initApi (some key) s).chat = some (mkChat key) ∧
       (initApi (some key) s).isApiReady = true ∧
       (initApi (some key) s).log = s.log) := by
  constructor
  · rintro k (rfl | rfl)
    · exact ⟨rfl, rfl, rfl⟩
    · exact ⟨rfl, rfl, rfl⟩
  · intro key hk
    simp [initApi, hk]

/-- C8 witness: at the initial state, the absent key logs the diagnostic
and creates nothing, and a concrete non-empty key creates the session
and sets the ready flag. -/
theorem c8_init_amended_witness :
    ((initApi none init0).isApiReady = init0.isApiReady ∧
     (initApi none init0).chat = init0.chat ∧
     (initApi none init0).log =
       init0.log ++ ["API_KEY environment variable not set."]) ∧
    ((initApi (some "k") init0).chat = some (mkChat "k") ∧
     (initApi (some "k") init0).isApiReady = true ∧
     (initApi (some "k") init0).log = init0.log) :=
  ⟨(c8_init_amended init0).1 none (Or.inl rfl),
   (c8_init_amended init0).2 "k" (by decide)⟩

/-- C9: getJarvisResponseStream never changes the module state — the
queue, the cancellation flag and every flag are returned exactly as they
were, whether the call produces the uninitialized-session error, the
remote stream, or a propagated transport fault. -/
theorem c9_send_frame (remote : String → Except String (List String))
    (s : JState) (msg : String) :
    (getJarvisResponseStream remote s msg).2 = s := by
  unfold getJarvisResponseStream
  cases s.chat with
  | none => rfl
  | some c => cases remote msg <;> rfl

/-- C10: the recognition result handler delivers to the stored callback
exactly one transcript per result event: the first alternative of the
last result in the event's result list, with leading and trailing
whitespace removed (possibly the empty string). -/
theorem c10_transcript (results : List (List String)) (alts : List String)
    (t : String) (s : JState)
    (h1 : results.getLast? = some alts) (h2 : alts.head? = some t) :
    recResult results s = some { s with cbLog := s.cbLog ++ [jsTrim t] } := by
  unfold recResult
  rw [h1]; simp only []; rw [h2]

/-- C10 witness: a concrete two-result event delivers the trimmed first
alternative of the last result — the whitespace-padded "Ola, Jarvis"
arrives trimmed — and extends the delivery history by exactly one
entry. -/
theorem c10_transcript_witness :
    recResult [["descartado"], ["  Ola, Jarvis "]] init0 =
      some { init0 with cbLog := init0.cbLog ++ [jsTrim "  Ola, Jarvis "] } :=
  c10_transcript [["descartado"], ["  Ola, Jarvis "]] ["  Ola, Jarvis "]
    "  Ola, Jarvis " init0 rfl rfl

end Jarvis
